import Mathlib

/-
Verification of the F5 ASM integration adapter
(src/Packs/F5/Integrations/f5_v2/f5_v2.py).

The Python module is shallowly embedded below.  Python runtime values that
flow through the adapter (JSON objects, strings, ints, bools, None) are
modelled by the inductive type `Val`; Python dictionaries are association
lists; a raised Python exception is modelled by `Except.error` carrying a
`PyError`.  HTTP transport is external to the repository, so every function
that performs a request is embedded as a function taking the corresponding
response (already decoded) as an explicit argument, and command handlers
additionally return the ordered list of `Request`s they would issue.
-/

namespace F5

/-- Python runtime values handled by the adapter: JSON scalars, `None`,
lists and dictionaries.  `vTime n` stands for the string produced by
`time.strftime(DATE_FORMAT, time.localtime(int(n / 1000000)))` in
`format_date` (f5_v2.py lines 1372-1375); the rendering depends on the
local timezone of the host, so it is kept abstract, keyed by the raw
microseconds value. -/
inductive Val where
  | vStr : String → Val
  | vInt : Int → Val
  | vBool : Bool → Val
  | vNone : Val
  | vTime : Int → Val
  | vList : List Val → Val
  | vObj : List (String × Val) → Val

/-- Python exceptions that the embedded code can raise. -/
inductive PyError where
  | indexError
  | attributeError
  | typeError
deriving DecidableEq

/-- Python truthiness (`if not x`): `None`, `0`, `False`, empty strings and
empty collections are falsy. -/
def pyTruthy : Val → Bool
  | .vStr s => !(s == "")
  | .vInt n => !(n == 0)
  | .vBool b => b
  | .vNone => false
  | .vTime _ => true
  | .vList l => !l.isEmpty
  | .vObj l => !l.isEmpty

/-- Python `x.get(k)` on a value expected to be a dict: returns the stored
value, `None` when the key is absent, and raises `AttributeError` when the
receiver is not a dict (e.g. `None.get(...)`). -/
def pyGet (v : Val) (k : String) : Except PyError Val :=
  match v with
  | .vObj fields => .ok ((fields.lookup k).getD .vNone)
  | _ => .error .attributeError

/-- Python `for x in v`: lists yield their elements, strings their
characters (as 1-character strings), dicts their keys; iterating any other
value raises `TypeError`. -/
def pyIter (v : Val) : Except PyError (List Val) :=
  match v with
  | .vList l => .ok l
  | .vStr s => .ok (s.data.map (fun c => .vStr (String.mk [c])))
  | .vObj fields => .ok (fields.map (fun kv => Val.vStr kv.1))
  | _ => .error .typeError

/-- Python f-string interpolation of a `str`-or-`None` value: `f"{None}"`
is the literal string `"None"`. -/
def pyStr : Option String → String
  | some s => s
  | none => "None"

/-- The repeated body-construction loop of f5_v2.py (e.g. lines 433-439,
501-504, 633-636): iterate over the pairs of `json_body_start` in insertion
order and keep exactly those whose value is not `None`. -/
def pyFilterNone (json_body_start : List (String × Option Val)) : List (String × Val) :=
  json_body_start.filterMap (fun kv => kv.2.map (fun v => (kv.1, v)))

/-- Python `list.index(a)`: index of the first element equal to `a`
(the embedded code only calls it on members of the list). -/
def pyIndexOf {α : Type} [DecidableEq α] : List α → α → Nat
  | [], _ => 0
  | b :: t, a => if a = b then 0 else pyIndexOf t a + 1

/-- Python list subscription `l[i]` with negative-index wrap-around:
`l[-1]` is the last element; an out-of-range index gives `none`
(an `IndexError` at the use site). -/
def pyIndex {α : Type} (l : List α) (i : Int) : Option α :=
  if i < 0 then
    if 0 ≤ (l.length : Int) + i then l.get? ((l.length : Int) + i).toNat else none
  else l.get? i.toNat

/-- The scan shared by all four identifier resolvers of f5_v2.py
(lines 41-44, 64-67, 88-91, 109-112):

    index = -1
    for element in items:
        if <element matches>:
            index = items.index(element)

The accumulator keeps being overwritten, so the last matching element
wins. -/
def lastMatchIndex {α : Type} [DecidableEq α] (items : List α) (p : α → Bool) : Int :=
  items.foldl (fun index element => if p element then ((pyIndexOf items element : Nat) : Int) else index) (-1)

/-- Component `[2]` of Python `s.partition(sep)` on character lists: the
part after the first occurrence of `sep`, or `[]` when `sep` does not
occur. -/
def dropThroughSep (sep : List Char) : List Char → List Char
  | [] => []
  | c :: t => if sep.isPrefixOf (c :: t) then (c :: t).drop sep.length else dropThroughSep sep t

/-- Component `[0]` of Python `s.partition(sep)` on character lists: the
part before the first occurrence of `sep`, or the whole list when `sep`
does not occur. -/
def takeBeforeSep (sep : List Char) : List Char → List Char
  | [] => []
  | c :: t => if sep.isPrefixOf (c :: t) then [] else c :: takeBeforeSep sep t

/-- Python `s.partition(sep)[2]` on strings. -/
def pyPartition2 (s sep : String) : String :=
  String.mk (dropThroughSep sep.data s.data)

/-- Python `s.partition(sep)[0]` on strings. -/
def pyPartition0 (s sep : String) : String :=
  String.mk (takeBeforeSep sep.data s.data)

/-- A `{"link": ...}` reference object, as stored under
`plainTextProfileReference` in a policies listing item. -/
structure Ref where
  link : Option String
deriving DecidableEq

/-- An item of the `items` array of a policies listing response.  `other`
stands for the remaining keys of the JSON object, which take part in the
dict equality used by `list.index` but are never read individually. -/
structure PolicyItem where
  name : Option String
  plainTextProfileReference : Option Ref
  other : List (String × String)
deriving DecidableEq

/-- An item of the `items` array of a sub-resource listing response
(methods, file types, hostnames, cookies, urls, blocking settings,
whitelist IPs).  The resolvers only read `name`, `description`,
`ipAddress` and `id`; `other` stands for the remaining keys. -/
structure SubItem where
  name : Option String
  description : Option String
  ipAddress : Option String
  id : Option String
  other : List (String × String)
deriving DecidableEq

/-- `Client.get_policy_md5` (f5_v2.py lines 28-48), given the decoded
`items` array of the `GET asm/policies` response.  Mirrors the source
statement for statement: the scan leaves `index = -1` when no item's
`name` equals `policy_name`; the line

    response = (response.get('items')[index].get('plainTextProfileReference').get('link'))

runs unconditionally *before* the `index == -1` test, so with `index = -1`
it subscripts the *last* element of the list (raising `IndexError` on an
empty list, and `AttributeError` when that element has no
`plainTextProfileReference` object); only then does the fallback
`return policy_name` run.  On a match, the id is cut out of the link with
`response.partition('policies/')[2].partition('/')[0]`. -/
def get_policy_md5 (items : List PolicyItem) (policy_name : String) : Except PyError String :=
  let index := lastMatchIndex items (fun element => element.name == some policy_name)
  match pyIndex items index with
  | none => .error .indexError
  | some item =>
    match item.plainTextProfileReference with
    | none => .error .attributeError
    | some ref =>
      if index = -1 then .ok policy_name
      else
        match ref.link with
        | none => .error .attributeError
        | some link => .ok (pyPartition0 (pyPartition2 link "policies/") "/")

/-- `Client.get_id` (f5_v2.py lines 50-70), given the decoded `items`
array of the `GET asm/policies/{md5}/{action}` response.  Returns
`items[index].get('id')` for the scanned index (so `none` models a
matched item without an `id` key), or the input name when no item
matches. -/
def get_id (items : List SubItem) (method_name : String) : Option String :=
  let index := lastMatchIndex items (fun element => element.name == some method_name)
  if index = -1 then some method_name
  else (pyIndex items index).bind SubItem.id

/-- `Client.get_blocking_settings_id` (f5_v2.py lines 72-94): same scan as
`get_id`, matching on the `description` field. -/
def get_blocking_settings_id (items : List SubItem) (description : String) : Option String :=
  let index := lastMatchIndex items (fun element => element.description == some description)
  if index = -1 then some description
  else (pyIndex items index).bind SubItem.id

/-- `Client.get_ip_id` (f5_v2.py lines 96-115): same scan as `get_id`,
matching on the `ipAddress` field. -/
def get_ip_id (items : List SubItem) (ip_address : String) : Option String :=
  let index := lastMatchIndex items (fun element => element.ipAddress == some ip_address)
  if index = -1 then some ip_address
  else (pyIndex items index).bind SubItem.id

/-- HTTP verbs used by the adapter. -/
inductive HttpMethod where
  | GET
  | POST
  | PATCH
  | DELETE
deriving DecidableEq

/-- One outgoing call to `Client._http_request`: the verb, the
`url_suffix` argument, and the `json_data` body (`none` when no
`json_data` keyword is passed). -/
structure Request where
  method : HttpMethod
  url_suffix : String
  json_data : Option (List (String × Val))

/-- The listing request issued inside `get_policy_md5`
(`GET asm/policies`, f5_v2.py line 38). -/
def policies_listing_request : Request :=
  ⟨.GET, "asm/policies", none⟩

/-- The listing request issued inside `get_id`
(`GET asm/policies/{md5}/{action}`, f5_v2.py line 62). -/
def get_id_listing_request (md5 action : String) : Request :=
  ⟨.GET, "asm/policies/" ++ md5 ++ "/" ++ action, none⟩

/-- The listing request issued inside `get_blocking_settings_id`
(`GET asm/policies/{md5}/blocking-settings/{category}`, f5_v2.py
lines 84-87). -/
def get_blocking_settings_listing_request (md5 category : String) : Request :=
  ⟨.GET, "asm/policies/" ++ md5 ++ "/blocking-settings/" ++ category, none⟩

/-- `format_date` (f5_v2.py lines 1372-1375): `int(date / 1000000)`
raises `TypeError` when `date` is `None` or a string; on a number it
renders the local time (kept abstract in `Val.vTime`, see there).  A
Python `bool` divides like an int. -/
def format_date (date : Val) : Except PyError Val :=
  match date with
  | .vInt micros => .ok (.vTime micros)
  | .vBool b => .ok (.vTime (if b then 1 else 0))
  | _ => .error .typeError

/-- Python `str.capitalize()`: first character upper-cased, the rest
lower-cased. -/
def pyCapitalize (s : String) : String :=
  match s.data with
  | [] => ""
  | c :: t => String.mk (c.toUpper :: t.map Char.toLower)

/-- The human-readable component of a command result: either a plain
string, or the output of the external `tableToMarkdown(title, data,
headers, removeNull=True)` renderer of CommonServerPython, which is not
part of this repository and is kept abstract (title, table data, optional
explicit header list). -/
inductive Markdown where
  | text : String → Markdown
  | table : String → Val → Option (List String) → Markdown

/-- The `(readable_output, outputs, result)` triple every formatter
returns to the dispatcher. -/
structure Triple where
  readable : Markdown
  outputs : List (String × Val)
  raw : Val

/-- `format_list_policies` (f5_v2.py lines 714-748).  Note that the source
reassigns `result = result.get('items')` before the second emptiness test,
so the `raw` component of both the second fallback and the success return
is the items array, not the original response. -/
def format_list_policies (result : Val) : Except PyError Triple := do
  if pyTruthy result = false then
    return ⟨Markdown.text "No data to show.", [], result⟩
  let result ← pyGet result "items"
  if pyTruthy result = false then
    return ⟨Markdown.text "No data to show.", [], result⟩
  let items ← pyIter result
  let printable_result ← items.mapM (fun item => do
    let name ← pyGet item "name"
    let id ← pyGet item "id"
    let type ← pyGet item "type"
    let creatorName ← pyGet item "creatorName"
    let createdDatetime ← pyGet item "createdDatetime"
    let enforcementMode ← pyGet item "enforcementMode"
    let active ← pyGet item "active"
    return Val.vObj [("name", name), ("id", id), ("type", type),
      ("creator-name", creatorName), ("created-time", createdDatetime),
      ("enforcement-mode", enforcementMode), ("active", active)])
  let outputs := [("f5.ListPolicies(val.uid && val.uid == obj.uid)", Val.vList printable_result)]
  return ⟨Markdown.table "f5 data for listing policies:" (Val.vList printable_result)
      (some ["name", "id", "type", "enforcement-mode", "creator-name", "active", "created-time"]),
    outputs, result⟩

/-- `format_export_policy` (f5_v2.py lines 777-805).  When the response
carries a `policyReference`, the source stores its link under
`outputs['policy-reference']`, i.e. as a *second top-level key* of the
context, not inside the `f5.ExportPolicy(...)` entry. -/
def format_export_policy (result : Val) : Except PyError Triple := do
  if pyTruthy result = false then
    return ⟨Markdown.text "No data to show.", [], result⟩
  let status ← pyGet result "status"
  let id ← pyGet result "id"
  let startTime ← pyGet result "startTime"
  let kind ← pyGet result "kind"
  let format ← pyGet result "format"
  let filename ← pyGet result "filename"
  let inner := Val.vObj [("status", status), ("id", id), ("start-time", startTime),
    ("kind", kind), ("format", format), ("filename", filename)]
  let outputs := [("f5.ExportPolicy(val.uid && val.uid == obj.uid)", inner)]
  let policy_reference ← pyGet result "policyReference"
  let outputs ←
    if pyTruthy policy_reference then do
      let link ← pyGet policy_reference "link"
      pure (outputs ++ [("policy-reference", link)])
    else pure outputs
  return ⟨Markdown.table "f5 data for exporting policy:" inner none, outputs, result⟩

/-- `format_policy_url_command` (f5_v2.py lines 1176-1207).  This
formatter has no emptiness guard: it unconditionally builds the printable
dict, including `format_date(result.get('lastUpdateMicros'))`. -/
def format_policy_url_command (result : Val) : Except PyError Triple := do
  let id ← pyGet result "id"
  let name ← pyGet result "name"
  let description ← pyGet result "description"
  let protocol ← pyGet result "protocol"
  let type ← pyGet result "type"
  let method ← pyGet result "method"
  let isAllowed ← pyGet result "isAllowed"
  let clickjackingProtection ← pyGet result "clickjackingProtection"
  let performStaging ← pyGet result "performStaging"
  let mandatoryBody ← pyGet result "mandatoryBody"
  let selfLink ← pyGet result "selfLink"
  let lastUpdateMicros ← pyGet result "lastUpdateMicros"
  let lastUpdate ← format_date lastUpdateMicros
  let printable_result := Val.vObj [("id", id), ("name", name), ("description", description),
    ("protocol", protocol), ("type", type), ("method", method), ("is-allowed", isAllowed),
    ("clickjacking-protection", clickjackingProtection), ("perform-staging", performStaging),
    ("mandatory-body", mandatoryBody), ("self-link", selfLink), ("last-update", lastUpdate)]
  let outputs := [("f5.Url(val.uid && val.uid == obj.uid)", printable_result)]
  return ⟨Markdown.table "URL for selected policy" printable_result
      (some ["id", "name", "description", "protocol", "type", "method", "is-allowed",
        "clickjacking-protection", "perform-staging", "mandatory-body", "self-link",
        "last-update"]),
    outputs, result⟩

/-- `format_apply_policy` (f5_v2.py lines 751-774). -/
def format_apply_policy (result : Val) : Except PyError Triple := do
  if pyTruthy result = false then
    return ⟨Markdown.text "No data to show.", [], result⟩
  let policyReference ← pyGet result "policyReference"
  let link ← pyGet policyReference "link"
  let status ← pyGet result "status"
  let id ← pyGet result "id"
  let startTime ← pyGet result "startTime"
  let kind ← pyGet result "kind"
  let inner := Val.vObj [("policy-reference", link), ("status", status), ("id", id),
    ("start-time", startTime), ("kind", kind)]
  let outputs := [("f5.ApplyPolicy(val.uid && val.uid == obj.uid)", inner)]
  return ⟨Markdown.table "f5 data for applying policy:" inner none, outputs, result⟩

/-- `format_delete_policy` (f5_v2.py lines 808-832). -/
def format_delete_policy (result : Val) : Except PyError Triple := do
  if pyTruthy result = false then
    return ⟨Markdown.text "No data to show.", [], result⟩
  let name ← pyGet result "name"
  let id ← pyGet result "id"
  let selfLink ← pyGet result "selfLink"
  let inner := Val.vObj [("name", name), ("id", id), ("self-link", selfLink)]
  let outputs := [("f5.delete-policy(val.uid && val.uid == obj.uid)", inner)]
  return ⟨Markdown.table "f5 data for deleting policy:" inner
    (some ["name", "id", "self-link"]), outputs, result⟩

/-- `format_list_policy_methods` (f5_v2.py lines 835-866).  As in
`format_list_policies`, the source reassigns `result = result.get('items')`
before the second guard, so the `raw` component from then on is the items
array. -/
def format_list_policy_methods (result : Val) : Except PyError Triple := do
  if pyTruthy result = false then
    return ⟨Markdown.text "No data to show.", [], result⟩
  let result ← pyGet result "items"
  if pyTruthy result = false then
    return ⟨Markdown.text "No data to show.", [], result⟩
  let items ← pyIter result
  let printable_result ← items.mapM (fun item => do
    let name ← pyGet item "name"
    let actAsMethod ← pyGet item "actAsMethod"
    let id ← pyGet item "id"
    let selfLink ← pyGet item "selfLink"
    let kind ← pyGet item "kind"
    let lastUpdated ← format_date (← pyGet item "lastUpdateMicros")
    return Val.vObj [("name", name), ("act-as-method", actAsMethod), ("id", id),
      ("self-link", selfLink), ("kind", kind), ("last-updated", lastUpdated)])
  let outputs := [("f5.PolicyMethods(val.uid && val.uid == obj.uid)", Val.vList printable_result)]
  return ⟨Markdown.table "f5 data for listing all policy methods:" (Val.vList printable_result)
      (some ["name", "act-as-method", "id", "self-link", "kind", "last-updated"]),
    outputs, result⟩

/-- `format_list_policy_file_type` (f5_v2.py lines 869-907). -/
def format_list_policy_file_type (result : Val) : Except PyError Triple := do
  if pyTruthy result = false then
    return ⟨Markdown.text "No data to show.", [], result⟩
  let result ← pyGet result "items"
  if pyTruthy result = false then
    return ⟨Markdown.text "No data to show.", [], result⟩
  let items ← pyIter result
  let printable_result ← items.mapM (fun item => do
    let name ← pyGet item "name"
    let id ← pyGet item "id"
    let selfLink ← pyGet item "selfLink"
    let queryStringLength ← pyGet item "queryStringLength"
    let checkRequestLength ← pyGet item "checkRequestLength"
    let kind ← pyGet item "kind"
    let allowed ← pyGet item "allowed"
    let lastUpdated ← format_date (← pyGet item "lastUpdateMicros")
    return Val.vObj [("name", name), ("id", id), ("self-link", selfLink),
      ("query-string-length", queryStringLength), ("check-request-length", checkRequestLength),
      ("kind", kind), ("allowed", allowed), ("last-updated", lastUpdated)])
  let outputs := [("f5.FileTypes(val.uid && val.uid == obj.uid)", Val.vList printable_result)]
  return ⟨Markdown.table "Listing all f5 file type:" (Val.vList printable_result)
      (some ["name", "id", "self-link", "query-string-length", "check-request-length",
        "kind", "allowed", "last-updated"]),
    outputs, result⟩

/-- `format_policy_methods_command` (f5_v2.py lines 910-937). -/
def format_policy_methods_command (result : Val) : Except PyError Triple := do
  if pyTruthy result = false then
    return ⟨Markdown.text "No data to show.", [], result⟩
  let name ← pyGet result "name"
  let id ← pyGet result "id"
  let actAsMethod ← pyGet result "actAsMethod"
  let selfLink ← pyGet result "selfLink"
  let kind ← pyGet result "kind"
  let inner := Val.vObj [("name", name), ("id", id), ("act-as-method", actAsMethod),
    ("self-link", selfLink), ("kind", kind)]
  let outputs := [("f5.PolicyMethods(val.uid && val.uid == obj.uid)", inner)]
  return ⟨Markdown.table "f5 data for policy methods:" inner
      (some ["name", "act-as-method", "id", "self-link", "kind"]),
    outputs, result⟩

/-- `format_file_type_command` (f5_v2.py lines 940-980). -/
def format_file_type_command (result : Val) : Except PyError Triple := do
  if pyTruthy result = false then
    return ⟨Markdown.text "No data to show.", [], result⟩
  let name ← pyGet result "name"
  let id ← pyGet result "id"
  let selfLink ← pyGet result "selfLink"
  let queryStringLength ← pyGet result "queryStringLength"
  let checkRequestLength ← pyGet result "checkRequestLength"
  let responseCheck ← pyGet result "responseCheck"
  let checkUrlLength ← pyGet result "checkUrlLength"
  let postDataLength ← pyGet result "postDataLength"
  let urlLength ← pyGet result "urlLength"
  let performStaging ← pyGet result "performStaging"
  let allowed ← pyGet result "allowed"
  let lastUpdated ← format_date (← pyGet result "lastUpdateMicros")
  let inner := Val.vObj [("name", name), ("id", id), ("self-link", selfLink),
    ("query-string-length", queryStringLength), ("check-request-length", checkRequestLength),
    ("response-check", responseCheck), ("check-url-length", checkUrlLength),
    ("post-data-length", postDataLength), ("url-length", urlLength),
    ("perform-staging", performStaging), ("allowed", allowed), ("last-updated", lastUpdated)]
  let outputs := [("f5.FileType(val.uid && val.uid == obj.uid)", inner)]
  return ⟨Markdown.table "f5 data for file types:" inner
      (some ["name", "id", "self-link", "query-string-length", "check-request-length",
        "response-check", "check-url-length", "url-length", "post-data-length",
        "perform-staging", "allowed", "last-updated"]),
    outputs, result⟩

/-- `format_policy_hostname_command` (f5_v2.py lines 983-1010).  Note the
no-data string here is `'Nothing to show'`. -/
def format_policy_hostname_command (result : Val) : Except PyError Triple := do
  if pyTruthy result = false then
    return ⟨Markdown.text "Nothing to show", [], result⟩
  let name ← pyGet result "name"
  let id ← pyGet result "id"
  let createdBy ← pyGet result "createdBy"
  let selfLink ← pyGet result "selfLink"
  let includeSubdomains ← pyGet result "includeSubdomains"
  let lastUpdate ← format_date (← pyGet result "lastUpdateMicros")
  let printable_result := Val.vObj [("name", name), ("id", id), ("created-by", createdBy),
    ("self-link", selfLink), ("include-subdomains", includeSubdomains),
    ("last-update", lastUpdate)]
  let outputs := [("f5.Hostname(val.uid && val.uid == obj.uid)", printable_result)]
  return ⟨Markdown.table "f5 information about hosts" printable_result
      (some ["id", "name", "created-by", "include-subdomains", "kind", "self-link",
        "last-update"]),
    outputs, result⟩

/-- `format_policy_hostnames_command` (f5_v2.py lines 1013-1044).  There
is no falsiness guard on `result` itself; `entries = result.get('items')`
runs first, and the original response stays the `raw` component. -/
def format_policy_hostnames_command (result : Val) : Except PyError Triple := do
  let entries ← pyGet result "items"
  if pyTruthy entries = false then
    return ⟨Markdown.text "Nothing to show", [], result⟩
  let items ← pyIter entries
  let printable_result ← items.mapM (fun item => do
    let name ← pyGet item "name"
    let id ← pyGet item "id"
    let createdBy ← pyGet item "createdBy"
    let selfLink ← pyGet item "selfLink"
    let includeSubdomains ← pyGet item "includeSubdomains"
    let lastUpdate ← format_date (← pyGet item "lastUpdateMicros")
    return Val.vObj [("name", name), ("id", id), ("created-by", createdBy),
      ("self-link", selfLink), ("include-subdomains", includeSubdomains),
      ("last-update", lastUpdate)])
  let outputs := [("f5.Hostname(val.uid && val.uid == obj.uid)", Val.vList printable_result)]
  return ⟨Markdown.table "f5 information about hosts" (Val.vList printable_result)
      (some ["id", "name", "created-by", "include-subdomains", "kind", "self-link",
        "last-update"]),
    outputs, result⟩

/-- The literal `references` dict shared by the two blocking-settings
formatters (f5_v2.py lines 1059-1061 and 1109-1111). -/
def bs_references : List (String × String) :=
  [("evasions", "evasionReference"), ("violations", "violationReference"),
   ("web-services-securities", "webServicesSecurityReference"),
   ("http-protocols", "httpProtocolReference")]

/-- Python `item.get(references.get(endpoint))`: when the endpoint is not
a key of `references`, the inner `get` yields `None` and `item.get(None)`
simply misses (no string key equals `None`), yielding `None`. -/
def pyGetByRefKey (item : Val) (endpoint : String) : Except PyError Val :=
  match bs_references.lookup endpoint with
  | some refKey => pyGet item refKey
  | none => pure Val.vNone

/-- `format_policy_blocking_settings_list_command` (f5_v2.py lines
1047-1093).  `section-reference` is filled inline by a conditional
expression (so it is `None` rather than absent when there is no
`sectionReference`), while `reference` is appended to the printable dict
only when present. -/
def format_policy_blocking_settings_list_command (result : Val) (endpoint : String) :
    Except PyError Triple := do
  let entries ← pyGet result "items"
  if pyTruthy entries = false then
    return ⟨Markdown.text "Nothing to show", [], result⟩
  let items ← pyIter entries
  let printable_result ← items.mapM (fun item => do
    let description ← pyGet item "description"
    let learn ← pyGet item "learn"
    let alarm ← pyGet item "alarm"
    let block ← pyGet item "block"
    let id ← pyGet item "id"
    let kind ← pyGet item "kind"
    let enabled ← pyGet item "enabled"
    let selfLink ← pyGet item "selfLink"
    let sectionReference ← pyGet item "sectionReference"
    let sectionLink ←
      if pyTruthy sectionReference then pyGet sectionReference "link"
      else pure Val.vNone
    let lastUpdate ← format_date (← pyGet item "lastUpdateMicros")
    let current := [("description", description), ("learn", learn), ("alarm", alarm),
      ("block", block), ("id", id), ("kind", kind), ("enabled", enabled),
      ("self-link", selfLink), ("section-reference", sectionLink),
      ("last-update", lastUpdate)]
    let reference_link ← pyGetByRefKey item endpoint
    if pyTruthy reference_link then do
      let link ← pyGet reference_link "link"
      return Val.vObj (current ++ [("reference", link)])
    else
      return Val.vObj current)
  let outputs := [("f5.BlockingSettings(val.uid && val.uid == obj.uid)", Val.vList printable_result)]
  return ⟨Markdown.table (pyCapitalize endpoint ++ " for selected policy")
      (Val.vList printable_result)
      (some ["id", "description", "enabled", "learn", "alarm", "block", "kind", "reference",
        "self-link", "section-reference", "last-update"]),
    outputs, result⟩

/-- `format_policy_blocking_settings_single_command` (f5_v2.py lines
1096-1137).  Like `format_policy_url_command` this formatter has no
emptiness guard, and `format_date` runs inside the printable dict
literal. -/
def format_policy_blocking_settings_single_command (result : Val) (endpoint : String) :
    Except PyError Triple := do
  let description ← pyGet result "description"
  let learn ← pyGet result "learn"
  let alarm ← pyGet result "alarm"
  let block ← pyGet result "block"
  let id ← pyGet result "id"
  let kind ← pyGet result "kind"
  let enabled ← pyGet result "enabled"
  let selfLink ← pyGet result "selfLink"
  let lastUpdate ← format_date (← pyGet result "lastUpdateMicros")
  let printable := [("description", description), ("learn", learn), ("alarm", alarm),
    ("block", block), ("id", id), ("kind", kind), ("enabled", enabled),
    ("self-link", selfLink), ("last-update", lastUpdate)]
  let section_reference ← pyGet result "sectionReference"
  let printable ←
    if pyTruthy section_reference then do
      let link ← pyGet section_reference "link"
      pure (printable ++ [("section-reference", link)])
    else pure printable
  let reference_link ← pyGetByRefKey result endpoint
  let printable ←
    if pyTruthy reference_link then do
      let link ← pyGet reference_link "link"
      pure (printable ++ [("reference", link)])
    else pure printable
  let outputs := [("f5.BlockingSettings(val.uid && val.uid == obj.uid)", Val.vObj printable)]
  return ⟨Markdown.table ("Modified " ++ endpoint) (Val.vObj printable)
      (some ["id", "description", "enabled", "learn", "alarm", "block", "kind", "reference",
        "self-link", "section-reference", "last-update"]),
    outputs, result⟩

/-- `format_list_policy_urls_command` (f5_v2.py lines 1140-1173). -/
def format_list_policy_urls_command (result : Val) : Except PyError Triple := do
  let entries ← pyGet result "items"
  if pyTruthy entries = false then
    return ⟨Markdown.text "Nothing to show", [], result⟩
  let items ← pyIter entries
  let printable_result ← items.mapM (fun item => do
    let id ← pyGet item "id"
    let name ← pyGet item "name"
    let description ← pyGet item "description"
    let protocol ← pyGet item "protocol"
    let type ← pyGet item "type"
    let method ← pyGet item "method"
    let isAllowed ← pyGet item "isAllowed"
    let clickjackingProtection ← pyGet item "clickjackingProtection"
    let performStaging ← pyGet item "performStaging"
    let mandatoryBody ← pyGet item "mandatoryBody"
    let selfLink ← pyGet item "selfLink"
    let lastUpdate ← format_date (← pyGet item "lastUpdateMicros")
    return Val.vObj [("id", id), ("name", name), ("description", description),
      ("protocol", protocol), ("type", type), ("method", method), ("is-allowed", isAllowed),
      ("clickjacking-protection", clickjackingProtection), ("perform-staging", performStaging),
      ("mandatory-body", mandatoryBody), ("self-link", selfLink), ("last-update", lastUpdate)])
  let outputs := [("f5.Url(val.uid && val.uid == obj.uid)", Val.vList printable_result)]
  return ⟨Markdown.table "URL for selected policy" (Val.vList printable_result)
      (some ["id", "name", "description", "protocol", "type", "method", "is-allowed",
        "clickjacking-protection", "perform-staging", "mandatory-body", "self-link",
        "last-update"]),
    outputs, result⟩

/-- `format_list_cookies` (f5_v2.py lines 1210-1248). -/
def format_list_cookies (result : Val) : Except PyError Triple := do
  if pyTruthy result = false then
    return ⟨Markdown.text "No data to show.", [], result⟩
  let result ← pyGet result "items"
  if pyTruthy result = false then
    return ⟨Markdown.text "No data to show.", [], result⟩
  let items ← pyIter result
  let printable_result ← items.mapM (fun item => do
    let name ← pyGet item "name"
    let id ← pyGet item "id"
    let selfLink ← pyGet item "selfLink"
    let enforcementType ← pyGet item "enforcementType"
    let performStaging ← pyGet item "performStaging"
    let kind ← pyGet item "kind"
    let isBase64 ← pyGet item "isBase64"
    let createdBy ← pyGet item "createdBy"
    return Val.vObj [("name", name), ("id", id), ("self-link", selfLink),
      ("enforcement-type", enforcementType), ("perform-staging", performStaging),
      ("kind", kind), ("is-base-64", isBase64), ("created-by", createdBy)])
  let outputs := [("f5.Cookies(val.uid && val.uid == obj.uid)", Val.vList printable_result)]
  return ⟨Markdown.table "f5 data for policy cookies:" (Val.vList printable_result)
      (some ["name", "id", "self-link", "enforcement-type", "perform-staging", "kind",
        "is-base-64", "created-by"]),
    outputs, result⟩

/-- `format_cookies_command` (f5_v2.py lines 1251-1282). -/
def format_cookies_command (result : Val) (action : String) : Except PyError Triple := do
  if pyTruthy result = false then
    return ⟨Markdown.text "No data to show.", [], result⟩
  let name ← pyGet result "name"
  let id ← pyGet result "id"
  let selfLink ← pyGet result "selfLink"
  let enforcementType ← pyGet result "enforcementType"
  let performStaging ← pyGet result "performStaging"
  let type ← pyGet result "type"
  let isBase64 ← pyGet result "isBase64"
  let createdBy ← pyGet result "createdBy"
  let printable_result := Val.vObj [("name", name), ("id", id), ("self-link", selfLink),
    ("enforcement-type", enforcementType), ("perform-staging", performStaging),
    ("type", type), ("is-base-64", isBase64), ("created-by", createdBy)]
  let outputs := [("f5.Cookies(val.uid && val.uid == obj.uid)", printable_result)]
  return ⟨Markdown.table ("f5 data for " ++ action ++ " policy cookies:") printable_result
      (some ["name", "id", "self-link", "enforcement-type", "perform-staging", "type",
        "is-base-64", "created-by"]),
    outputs, result⟩

/-- `format_policy_whitelist_ips_command` (f5_v2.py lines 1285-1329). -/
def format_policy_whitelist_ips_command (result : Val) : Except PyError Triple := do
  if pyTruthy result = false then
    return ⟨Markdown.text "No data to show.", [], result⟩
  let result ← pyGet result "items"
  if pyTruthy result = false then
    return ⟨Markdown.text "No data to show.", [], result⟩
  let items ← pyIter result
  let printable_result ← items.mapM (fun item => do
    let id ← pyGet item "id"
    let selfLink ← pyGet item "selfLink"
    let ipAddress ← pyGet item "ipAddress"
    let ipMask ← pyGet item "ipMask"
    let description ← pyGet item "description"
    let blockRequests ← pyGet item "blockRequests"
    let ignoreAnomalies ← pyGet item "ignoreAnomalies"
    let neverLogRequests ← pyGet item "neverLogRequests"
    let neverLearnRequests ← pyGet item "neverLearnRequests"
    let trustedByPolicyBuilder ← pyGet item "trustedByPolicyBuilder"
    let lastUpdate ← format_date (← pyGet item "lastUpdateMicros")
    return Val.vObj [("id", id), ("self-link", selfLink), ("ip-address", ipAddress),
      ("ip-mask", ipMask), ("description", description), ("block-requests", blockRequests),
      ("ignore-anomalies", ignoreAnomalies), ("never-log-requests", neverLogRequests),
      ("never-learn-requests", neverLearnRequests),
      ("trusted-by-policy-builder", trustedByPolicyBuilder), ("last-update", lastUpdate)])
  let outputs := [("f5.WhitelistIP(val.uid && val.uid == obj.uid)", Val.vList printable_result)]
  return ⟨Markdown.table "f5 data for resource whitelisted IPs:" (Val.vList printable_result)
      (some ["id", "ip-address", "ip-mask", "description", "block-requests", "ignore-anomalies",
        "never-log-requests", "never-learn-requests", "trusted-by-policy-builder", "self-link",
        "last-update"]),
    outputs, result⟩

/-- `format_policy_whitelist_ip_command` (f5_v2.py lines 1332-1369). -/
def format_policy_whitelist_ip_command (result : Val) (action : String) :
    Except PyError Triple := do
  if pyTruthy result = false then
    return ⟨Markdown.text "No data to show.", [], result⟩
  let id ← pyGet result "id"
  let selfLink ← pyGet result "selfLink"
  let ipAddress ← pyGet result "ipAddress"
  let ipMask ← pyGet result "ipMask"
  let description ← pyGet result "description"
  let blockRequests ← pyGet result "blockRequests"
  let ignoreAnomalies ← pyGet result "ignoreAnomalies"
  let neverLogRequests ← pyGet result "neverLogRequests"
  let neverLearnRequests ← pyGet result "neverLearnRequests"
  let trustedByPolicyBuilder ← pyGet result "trustedByPolicyBuilder"
  let lastUpdate ← format_date (← pyGet result "lastUpdateMicros")
  let printable_result := Val.vObj [("id", id), ("self-link", selfLink),
    ("ip-address", ipAddress), ("ip-mask", ipMask), ("description", description),
    ("block-requests", blockRequests), ("ignore-anomalies", ignoreAnomalies),
    ("never-log-requests", neverLogRequests), ("never-learn-requests", neverLearnRequests),
    ("trusted-by-policy-builder", trustedByPolicyBuilder), ("last-update", lastUpdate)]
  let outputs := [("f5.WhitelistIP(val.uid && val.uid == obj.uid)", printable_result)]
  return ⟨Markdown.table ("f5 data for " ++ action ++ " resource whitelisted IP:")
      printable_result
      (some ["id", "ip-address", "ip-mask", "description", "block-requests", "ignore-anomalies",
        "never-log-requests", "never-learn-requests", "trusted-by-policy-builder", "self-link",
        "last-update"]),
    outputs, result⟩

/-- `Client.f5_list_policies_command` (f5_v2.py lines 124-141): issues
`GET asm/policies` (transport external; the decoded response is the
argument) and formats it with `format_list_policies`. -/
def f5_list_policies_command (response : Val) : Except PyError Triple :=
  format_list_policies response

/-- `Client.f5_update_policy_blocking_settings_command` (f5_v2.py lines
415-445), as the ordered trace of requests it issues.  `policies` and
`settings` are the decoded `items` arrays of the two listing responses.
The Python signature defaults `enabled`, `alarm` and `block` to `None`
and `learn` to `True`; a call site that omits an argument passes that
default here. -/
def f5_update_policy_blocking_settings_command (policies : List PolicyItem)
    (settings : List SubItem) (policy_name endpoint description : String)
    (enabled learn alarm block : Option Val) : Except PyError (List Request) := do
  let md5 ← get_policy_md5 policies policy_name
  let blocking_settings_id := get_blocking_settings_id settings description
  let body := pyFilterNone [("enabled", enabled), ("learn", learn), ("alarm", alarm), ("block", block)]
  return [policies_listing_request,
    get_blocking_settings_listing_request md5 endpoint,
    ⟨.PATCH, "asm/policies/" ++ md5 ++ "/blocking-settings/" ++ endpoint ++ "/" ++
      pyStr blocking_settings_id, some body⟩]

/-- `Client.f5_update_policy_url_command` (f5_v2.py lines 480-509), as the
ordered trace of requests it issues.  All five optional parameters default
to `None` in the Python signature. -/
def f5_update_policy_url_command (policies : List PolicyItem) (urls : List SubItem)
    (policy_name name : String)
    (perform_staging description mandatory_body clickjacking_protection url_isreferrer : Option Val) :
    Except PyError (List Request) := do
  let md5 ← get_policy_md5 policies policy_name
  let url_id := get_id urls name
  let json_body := pyFilterNone [("performStaging", perform_staging),
    ("description", description), ("mandatoryBody", mandatory_body),
    ("clickjackingProtection", clickjacking_protection), ("urlIsReferrer", url_isreferrer)]
  return [policies_listing_request,
    get_id_listing_request md5 "urls",
    ⟨.PATCH, "asm/policies/" ++ md5 ++ "/urls/" ++ pyStr url_id, some json_body⟩]

/-- `Client.f5_add_policy_whitelist_ips_command` (f5_v2.py lines 605-640),
as the ordered trace of requests it issues.  `ip_address` is required; the
eight optional parameters default to `None` in the Python signature.  The
insertion order of `json_body_start` follows the source (lines 627-632). -/
def f5_add_policy_whitelist_ips_command (policies : List PolicyItem) (policy_name : String)
    (ip_address : Val)
    (ip_mask trusted_by_builder ignore_brute_detection description block_requests
      ignore_learning never_log ignore_intelligence : Option Val) :
    Except PyError (List Request) := do
  let md5_hash ← get_policy_md5 policies policy_name
  let json_body := pyFilterNone [("ipAddress", some ip_address), ("ipMask", ip_mask),
    ("ignoreIpReputation", ignore_intelligence), ("blockRequests", block_requests),
    ("ignoreAnomalies", ignore_brute_detection), ("description", description),
    ("neverLearnRequests", ignore_learning), ("neverLogRequests", never_log),
    ("trustedByPolicyBuilder", trusted_by_builder)]
  return [policies_listing_request,
    ⟨.POST, "asm/policies/" ++ md5_hash ++ "/whitelist-ips/", some json_body⟩]

/-- `Client.f5_delete_policy_hostname_command` (f5_v2.py lines 388-400),
as the ordered trace of requests it issues: resolve the policy id, resolve
the hostname id against the `host-names` listing, then DELETE
`asm/policies/{md5}/host-names/{hostname_id}` (no body). -/
def f5_delete_policy_hostname_command (policies : List PolicyItem) (hostnames : List SubItem)
    (policy_name name : String) : Except PyError (List Request) := do
  let md5 ← get_policy_md5 policies policy_name
  let hostname_id := get_id hostnames name
  return [policies_listing_request,
    get_id_listing_request md5 "host-names",
    ⟨.DELETE, "asm/policies/" ++ md5 ++ "/host-names/" ++ pyStr hostname_id, none⟩]

/-- `Client.f5_update_policy_cookies_command` (f5_v2.py lines 555-575), as
the ordered trace of requests it issues.  The cookie id is resolved with
`self.get_id(md5_hash, cookie_name, 'policy-cookies')` (line 568), i.e.
the listing request targets the `policy-cookies` collection, while the
PATCH itself targets `cookies/{id}`. -/
def f5_update_policy_cookies_command (policies : List PolicyItem) (cookies : List SubItem)
    (policy_name cookie_name : String) (perform_staging : Val) :
    Except PyError (List Request) := do
  let md5_hash ← get_policy_md5 policies policy_name
  let file_type_id := get_id cookies cookie_name
  let body := [("name", Val.vStr cookie_name), ("performStaging", perform_staging)]
  return [policies_listing_request,
    get_id_listing_request md5_hash "policy-cookies",
    ⟨.PATCH, "asm/policies/" ++ md5_hash ++ "/cookies/" ++ pyStr file_type_id, some body⟩]

/-- `Client.f5_delete_policy_cookies_command` (f5_v2.py lines 577-590), as
the ordered trace of requests it issues.  The cookie id is resolved with
`self.get_id(md5, cookie_name, 'cookies')` (line 587), i.e. the listing
request targets the `cookies` collection. -/
def f5_delete_policy_cookies_command (policies : List PolicyItem) (cookies : List SubItem)
    (policy_name cookie_name : String) : Except PyError (List Request) := do
  let md5 ← get_policy_md5 policies policy_name
  let file_type_id := get_id cookies cookie_name
  return [policies_listing_request,
    get_id_listing_request md5 "cookies",
    ⟨.DELETE, "asm/policies/" ++ md5 ++ "/cookies/" ++ pyStr file_type_id, some []⟩]

/-! Helper lemmas about the embedded Python primitives. -/

/-- Folding the resolver-scan step over a stretch with no match leaves the
accumulator unchanged. -/
theorem foldl_if_const {α : Type} (p : α → Bool) (g : α → Int) (l : List α) (acc : Int)
    (h : ∀ x ∈ l, p x = false) :
    List.foldl (fun index element => if p element then g element else index) acc l = acc := by
  induction l generalizing acc with
  | nil => rfl
  | cons b t ih =>
    rw [List.foldl_cons]
    have hb : p b = false := h b (List.mem_cons_self b t)
    simp only [hb, Bool.false_eq_true, if_false]
    exact ih acc (fun x hx => h x (List.mem_cons_of_mem b hx))

/-- When no element matches, the scan of the resolvers ends at `-1`. -/
theorem lastMatchIndex_of_no_match {α : Type} [DecidableEq α] (items : List α) (p : α → Bool)
    (h : ∀ x ∈ items, p x = false) : lastMatchIndex items p = -1 :=
  foldl_if_const p _ items (-1) h

/-- When `a` is the last matching element, the scan ends at the first
index holding a value equal to `a` (Python `list.index(a)`). -/
theorem lastMatchIndex_append {α : Type} [DecidableEq α] (l₁ l₂ : List α) (a : α) (p : α → Bool)
    (ha : p a = true) (h₂ : ∀ x ∈ l₂, p x = false) :
    lastMatchIndex (l₁ ++ a :: l₂) p = ((pyIndexOf (l₁ ++ a :: l₂) a : Nat) : Int) := by
  unfold lastMatchIndex
  rw [List.foldl_append, List.foldl_cons]
  simp only [ha, if_true]
  exact foldl_if_const p _ l₂ _ h₂

/-- `list.index` returns a position that holds an element equal to the
one searched for. -/
theorem get?_pyIndexOf {α : Type} [DecidableEq α] (l : List α) (a : α) (h : a ∈ l) :
    l.get? (pyIndexOf l a) = some a := by
  induction l with
  | nil => simp at h
  | cons b t ih =>
    by_cases hab : a = b
    · subst hab
      simp [pyIndexOf]
    · have ht : a ∈ t := by
        rcases List.mem_cons.mp h with h1 | h2
        · exact absurd h1 hab
        · exact h2
      simp only [pyIndexOf, hab, if_false, List.get?_cons_succ]
      exact ih ht

/-- Python subscription at a non-negative index is plain list lookup. -/
theorem pyIndex_ofNat {α : Type} (l : List α) (n : Nat) : pyIndex l (n : Int) = l.get? n := by
  unfold pyIndex
  rw [if_neg (by omega : ¬ ((n : Int) < 0))]
  simp

/-- Python subscription at `-1` yields the last element. -/
theorem pyIndex_neg_one {α : Type} (l : List α) (a : α) (h : l.getLast? = some a) :
    pyIndex l (-1) = some a := by
  have hlen : 1 ≤ l.length := by
    cases l with
    | nil => simp at h
    | cons x t => simp
  unfold pyIndex
  rw [if_pos (by omega : (-1 : Int) < 0), if_pos (by omega : (0 : Int) ≤ (l.length : Int) + -1)]
  have ht : ((l.length : Int) + -1).toNat = l.length - 1 := by omega
  rw [ht, List.get?_eq_getElem?, ← List.getLast?_eq_getElem?]
  exact h

/-- The resolver scan selects a value equal to the last matching element
(overwrite-on-match tie-break), and in particular does not take the `-1`
fallback branch. -/
theorem resolver_last_match {α : Type} [DecidableEq α] (l₁ l₂ : List α) (a : α) (p : α → Bool)
    (ha : p a = true) (h₂ : ∀ x ∈ l₂, p x = false) :
    pyIndex (l₁ ++ a :: l₂) (lastMatchIndex (l₁ ++ a :: l₂) p) = some a ∧
    lastMatchIndex (l₁ ++ a :: l₂) p ≠ -1 := by
  rw [lastMatchIndex_append l₁ l₂ a p ha h₂]
  constructor
  · rw [pyIndex_ofNat]
    exact get?_pyIndexOf _ _ (by simp)
  · omega

/-- `partition(sep)[2]` cuts everything through the first occurrence of
the separator: if `sep` first occurs right after `pre`, the part after it
is returned. -/
theorem dropThroughSep_eq (sep pre post : List Char) (hsep : sep ≠ [])
    (hfirst : ∀ i, i < pre.length → sep.isPrefixOf ((pre ++ sep ++ post).drop i) = false) :
    dropThroughSep sep (pre ++ sep ++ post) = post := by
  induction pre with
  | nil =>
    cases sep with
    | nil => exact absurd rfl hsep
    | cons c s =>
      show dropThroughSep (c :: s) ((c :: s) ++ post) = post
      have hpre : (c :: s).isPrefixOf ((c :: s) ++ post) = true := by
        simp [List.isPrefixOf_iff_prefix]
      rw [List.cons_append]
      rw [show dropThroughSep (c :: s) (c :: (s ++ post))
            = if (c :: s).isPrefixOf (c :: (s ++ post)) then (c :: (s ++ post)).drop (c :: s).length
              else dropThroughSep (c :: s) (s ++ post) from rfl]
      rw [if_pos (by rw [← List.cons_append]; exact hpre)]
      rw [← List.cons_append]
      exact List.drop_left (c :: s) post
  | cons b pre' ih =>
    have h0 : sep.isPrefixOf (b :: (pre' ++ sep ++ post)) = false := by
      have h0a := hfirst 0 (by simp)
      rw [List.drop_zero] at h0a
      simp only [List.cons_append] at h0a
      exact h0a
    show dropThroughSep sep (b :: (pre' ++ sep ++ post)) = post
    rw [show dropThroughSep sep (b :: (pre' ++ sep ++ post))
          = if sep.isPrefixOf (b :: (pre' ++ sep ++ post)) then (b :: (pre' ++ sep ++ post)).drop sep.length
            else dropThroughSep sep (pre' ++ sep ++ post) from rfl]
    rw [if_neg (fun hc => by rw [h0] at hc; exact Bool.false_ne_true hc)]
    exact ih (fun i hi => by
      have hstep := hfirst (i + 1) (by simp only [List.length_cons]; omega)
      simp only [List.cons_append, List.drop_succ_cons] at hstep
      exact hstep)

/-- `partition(sep)[0]` with a single-character separator absent from the
head part returns exactly that head part. -/
theorem takeBeforeSep_single (c : Char) (idPart suf : List Char) (h : c ∉ idPart) :
    takeBeforeSep [c] (idPart ++ c :: suf) = idPart := by
  induction idPart with
  | nil =>
    show takeBeforeSep [c] (c :: suf) = []
    rw [show takeBeforeSep [c] (c :: suf)
          = if ([c]).isPrefixOf (c :: suf) then [] else c :: takeBeforeSep [c] suf from rfl]
    rw [if_pos (by simp [List.isPrefixOf_iff_prefix])]
  | cons d idPart' ih =>
    have hdc : ¬ (c = d) := fun e => h (e ▸ List.mem_cons_self d idPart')
    show takeBeforeSep [c] (d :: (idPart' ++ c :: suf)) = d :: idPart'
    rw [show takeBeforeSep [c] (d :: (idPart' ++ c :: suf))
          = if ([c]).isPrefixOf (d :: (idPart' ++ c :: suf)) then []
            else d :: takeBeforeSep [c] (idPart' ++ c :: suf) from rfl]
    rw [if_neg (by simp [List.isPrefixOf, hdc])]
    exact congrArg (d :: ·) (ih (fun e => h (List.mem_cons_of_mem d e)))

/-- Membership in a body built by the non-`None` filtering loop: a pair is
sent exactly when the corresponding entry of `json_body_start` holds its
value wrapped in `some`. -/
theorem mem_pyFilterNone (l : List (String × Option Val)) (k : String) (v : Val) :
    ((k, v) ∈ pyFilterNone l) ↔ (k, some v) ∈ l := by
  induction l with
  | nil => simp [pyFilterNone]
  | cons kv t ih =>
    obtain ⟨k', ov⟩ := kv
    cases ov with
    | none =>
      rw [show pyFilterNone ((k', none) :: t) = pyFilterNone t from rfl, ih]
      constructor
      · exact fun hmem => List.mem_cons_of_mem _ hmem
      · intro hmem
        rcases List.mem_cons.mp hmem with h1 | h2
        · exact absurd (congrArg Prod.snd h1) (by simp)
        · exact h2
    | some w =>
      rw [show pyFilterNone ((k', some w) :: t) = (k', w) :: pyFilterNone t from rfl]
      simp [List.mem_cons, ih]

/-- When no item's `name` matches, `get_id` falls back to the input name
itself. -/
theorem get_id_of_no_match (items : List SubItem) (method_name : String)
    (h : ∀ x ∈ items, x.name ≠ some method_name) :
    get_id items method_name = some method_name := by
  have hidx : lastMatchIndex items (fun element => element.name == some method_name) = -1 :=
    lastMatchIndex_of_no_match items _ (fun x hx => by
      simp [beq_eq_false_iff_ne]
      exact h x hx)
  simp [get_id, hidx]

/-! Claim theorems. -/

/-- Claim C1, counterexample.  The claim says that for every policies
listing response and every policy name that matches no item,
`get_policy_md5` returns the input name unchanged without raising an
error.  This is false: on the listing response `{"items": []}` the
unconditional subscription `items[-1]` raises `IndexError` before the
fallback `return policy_name` is reached. -/
theorem claim_C1_counterexample :
    get_policy_md5 [] "p" = Except.error PyError.indexError ∧
    get_policy_md5 [] "p" ≠ Except.ok "p" :=
  ⟨rfl, fun hc => Except.noConfusion hc⟩

/-- Claim C1, amended.  For a policy name matching no item,
`get_policy_md5` returns the name unchanged provided the items array is
non-empty and its last element carries a `plainTextProfileReference`
object; with an empty items array the function instead raises
`IndexError` (and `AttributeError` when the last element has no such
reference). -/
theorem claim_C1_amended (items : List PolicyItem) (policy_name : String)
    (a : PolicyItem) (r : Ref)
    (hlast : items.getLast? = some a) (href : a.plainTextProfileReference = some r)
    (hnomatch : ∀ x ∈ items, x.name ≠ some policy_name) :
    get_policy_md5 items policy_name = Except.ok policy_name := by
  have hidx : lastMatchIndex items (fun element => element.name == some policy_name) = -1 :=
    lastMatchIndex_of_no_match items _ (fun x hx => by
      simp only [beq_eq_false_iff_ne]
      exact hnomatch x hx)
  simp only [get_policy_md5, hidx, pyIndex_neg_one items a hlast, href]
  simp

/-- Claim C1 witness: a concrete one-item listing in which nothing
matches the requested name, so the name comes back unchanged. -/
theorem claim_C1_amended_witness :
    get_policy_md5 [⟨some "q", some ⟨some "L"⟩, []⟩] "p" = Except.ok "p" :=
  claim_C1_amended [⟨some "q", some ⟨some "L"⟩, []⟩] "p"
    ⟨some "q", some ⟨some "L"⟩, []⟩ ⟨some "L"⟩ (by decide) (by decide) (by decide)

/-- Claim C2: in each of the three sub-resource resolvers (`get_id`,
`get_blocking_settings_id`, `get_ip_id`), when at least one item matches
the natural key (`name`, `description`, `ipAddress` respectively), the
`id` of the LAST matching item in listed order is returned: writing the
listing as `l₁ ++ a :: l₂` with `a` matching and nothing in `l₂`
matching, the result is `a.id`. -/
theorem claim_C2_last_match_wins (l₁ l₂ : List SubItem) (a : SubItem) (key : String) :
    (a.name = some key → (∀ x ∈ l₂, x.name ≠ some key) →
      get_id (l₁ ++ a :: l₂) key = a.id) ∧
    (a.description = some key → (∀ x ∈ l₂, x.description ≠ some key) →
      get_blocking_settings_id (l₁ ++ a :: l₂) key = a.id) ∧
    (a.ipAddress = some key → (∀ x ∈ l₂, x.ipAddress ≠ some key) →
      get_ip_id (l₁ ++ a :: l₂) key = a.id) := by
  refine ⟨fun ha h₂ => ?_, fun ha h₂ => ?_, fun ha h₂ => ?_⟩
  · obtain ⟨hsome, hneq⟩ := resolver_last_match l₁ l₂ a (fun e => e.name == some key)
      (by simp [ha]) (fun x hx => by
        simp only [beq_eq_false_iff_ne]
        exact h₂ x hx)
    simp only [get_id, hsome]
    rw [if_neg hneq]
    rfl
  · obtain ⟨hsome, hneq⟩ := resolver_last_match l₁ l₂ a (fun e => e.description == some key)
      (by simp [ha]) (fun x hx => by
        simp only [beq_eq_false_iff_ne]
        exact h₂ x hx)
    simp only [get_blocking_settings_id, hsome]
    rw [if_neg hneq]
    rfl
  · obtain ⟨hsome, hneq⟩ := resolver_last_match l₁ l₂ a (fun e => e.ipAddress == some key)
      (by simp [ha]) (fun x hx => by
        simp only [beq_eq_false_iff_ne]
        exact h₂ x hx)
    simp only [get_ip_id, hsome]
    rw [if_neg hneq]
    rfl

/-- Claim C2 witness: two items share the natural key `"m"` with ids
`"1"` and `"2"`, and the second (last) id is returned by each resolver. -/
theorem claim_C2_witness :
    get_id [⟨some "m", none, none, some "1", []⟩, ⟨some "m", none, none, some "2", []⟩] "m"
      = some "2" ∧
    get_blocking_settings_id
      [⟨none, some "m", none, some "1", []⟩, ⟨none, some "m", none, some "2", []⟩] "m"
      = some "2" ∧
    get_ip_id [⟨none, none, some "m", some "1", []⟩, ⟨none, none, some "m", some "2", []⟩] "m"
      = some "2" :=
  ⟨(claim_C2_last_match_wins [⟨some "m", none, none, some "1", []⟩] []
      ⟨some "m", none, none, some "2", []⟩ "m").1 rfl (by decide),
   (claim_C2_last_match_wins [⟨none, some "m", none, some "1", []⟩] []
      ⟨none, some "m", none, some "2", []⟩ "m").2.1 rfl (by decide),
   (claim_C2_last_match_wins [⟨none, none, some "m", some "1", []⟩] []
      ⟨none, none, some "m", some "2", []⟩ "m").2.2 rfl (by decide)⟩

/-- Claim C5, counterexample.  The claim says every formatter, including
the single-URL formatter, treats an empty response body as benign and
returns normally.  This is false: `format_policy_url_command` has no
emptiness guard and evaluates `format_date(result.get('lastUpdateMicros'))`,
which on the empty object is `int(None / 1000000)` and raises
`TypeError`. -/
theorem claim_C5_counterexample :
    format_policy_url_command (Val.vObj []) = Except.error PyError.typeError := rfl

/-- Claim C5, amended.  On an empty response object every formatter
except the single-URL formatter and the single-blocking-setting formatter
returns normally with a no-data string and an empty context; those two
raise `TypeError` out of `format_date` applied to the missing
`lastUpdateMicros` value. -/
theorem claim_C5_amended (endpoint action : String) :
    format_list_policies (Val.vObj [])
      = Except.ok ⟨Markdown.text "No data to show.", [], Val.vObj []⟩ ∧
    format_apply_policy (Val.vObj [])
      = Except.ok ⟨Markdown.text "No data to show.", [], Val.vObj []⟩ ∧
    format_export_policy (Val.vObj [])
      = Except.ok ⟨Markdown.text "No data to show.", [], Val.vObj []⟩ ∧
    format_delete_policy (Val.vObj [])
      = Except.ok ⟨Markdown.text "No data to show.", [], Val.vObj []⟩ ∧
    format_list_policy_methods (Val.vObj [])
      = Except.ok ⟨Markdown.text "No data to show.", [], Val.vObj []⟩ ∧
    format_list_policy_file_type (Val.vObj [])
      = Except.ok ⟨Markdown.text "No data to show.", [], Val.vObj []⟩ ∧
    format_policy_methods_command (Val.vObj [])
      = Except.ok ⟨Markdown.text "No data to show.", [], Val.vObj []⟩ ∧
    format_file_type_command (Val.vObj [])
      = Except.ok ⟨Markdown.text "No data to show.", [], Val.vObj []⟩ ∧
    format_policy_hostname_command (Val.vObj [])
      = Except.ok ⟨Markdown.text "Nothing to show", [], Val.vObj []⟩ ∧
    format_policy_hostnames_command (Val.vObj [])
      = Except.ok ⟨Markdown.text "Nothing to show", [], Val.vObj []⟩ ∧
    format_policy_blocking_settings_list_command (Val.vObj []) endpoint
      = Except.ok ⟨Markdown.text "Nothing to show", [], Val.vObj []⟩ ∧
    format_list_policy_urls_command (Val.vObj [])
      = Except.ok ⟨Markdown.text "Nothing to show", [], Val.vObj []⟩ ∧
    format_list_cookies (Val.vObj [])
      = Except.ok ⟨Markdown.text "No data to show.", [], Val.vObj []⟩ ∧
    format_cookies_command (Val.vObj []) action
      = Except.ok ⟨Markdown.text "No data to show.", [], Val.vObj []⟩ ∧
    format_policy_whitelist_ips_command (Val.vObj [])
      = Except.ok ⟨Markdown.text "No data to show.", [], Val.vObj []⟩ ∧
    format_policy_whitelist_ip_command (Val.vObj []) action
      = Except.ok ⟨Markdown.text "No data to show.", [], Val.vObj []⟩ ∧
    format_policy_url_command (Val.vObj []) = Except.error PyError.typeError ∧
    format_policy_blocking_settings_single_command (Val.vObj []) endpoint
      = Except.error PyError.typeError :=
  ⟨rfl, rfl, rfl, rfl, rfl, rfl, rfl, rfl, rfl, rfl, rfl, rfl, rfl, rfl, rfl, rfl, rfl, rfl⟩

/-- Claim C6 (a code bug).  The spec requires every non-empty response's
context to be a single-key mapping, and every formatter except
`format_export_policy` satisfies it, but on an export-policy response
that carries a `policyReference` the source stores the link under
`outputs['policy-reference']` -- a second TOP-LEVEL context key -- instead
of inside the `f5.ExportPolicy(...)` entry (compare
`format_policy_blocking_settings_single_command`, which adds the
analogous `section-reference` field to the inner printable dict).  At the
failing input below the context's key list has two entries. -/
theorem claim_C6_export_two_keys :
    (format_export_policy (Val.vObj [("status", Val.vStr "COMPLETED"),
        ("id", Val.vStr "1"),
        ("policyReference", Val.vObj [("link", Val.vStr "https://h/mgmt/tm/asm/policies/A/x")])])).map
      (fun t => t.outputs.map Prod.fst)
    = Except.ok ["f5.ExportPolicy(val.uid && val.uid == obj.uid)", "policy-reference"] := rfl

/-- Claim C7: when the policy-listing response is `{"items": []}`, the
list-policies command returns the literal markdown string
`"No data to show."` together with an empty context object (the raw
component is the reassigned empty items array, see
`format_list_policies`). -/
theorem claim_C7_empty_listing :
    f5_list_policies_command (Val.vObj [("items", Val.vList [])])
      = Except.ok ⟨Markdown.text "No data to show.", [], Val.vList []⟩ := rfl


/-- Claim C4: when the listing contains a matching item (written
`l₁ ++ a :: l₂` with `a` the last match, as resolved by the scan) whose
reference link has the shape `<pre>policies/<id>/<suffix>` -- with the
first occurrence of `"policies/"` right after `pre` and no `'/'` inside
the id -- `get_policy_md5` returns exactly that id segment. -/
theorem claim_C4_match_extracts_id (l₁ l₂ : List PolicyItem) (a : PolicyItem)
    (policy_name link : String) (pre iddata suf : List Char)
    (hname : a.name = some policy_name)
    (htail : ∀ x ∈ l₂, x.name ≠ some policy_name)
    (href : a.plainTextProfileReference = some ⟨some link⟩)
    (hdata : link.data = pre ++ "policies/".data ++ iddata ++ '/' :: suf)
    (hfirst : ∀ i, i < pre.length →
      ("policies/".data).isPrefixOf (link.data.drop i) = false)
    (hslash : '/' ∉ iddata) :
    get_policy_md5 (l₁ ++ a :: l₂) policy_name = Except.ok (String.mk iddata) := by
  obtain ⟨hsome, hneq⟩ := resolver_last_match l₁ l₂ a (fun e => e.name == some policy_name)
    (by simp [hname]) (fun x hx => by
      simp only [beq_eq_false_iff_ne]
      exact htail x hx)
  simp only [get_policy_md5, hsome, href]
  rw [if_neg hneq]
  have hL : link.data = (pre ++ "policies/".data) ++ (iddata ++ '/' :: suf) := by
    rw [hdata]
    simp [List.append_assoc]
  have h2 : dropThroughSep "policies/".data link.data = iddata ++ '/' :: suf := by
    rw [hL]
    exact dropThroughSep_eq "policies/".data pre (iddata ++ '/' :: suf) (by decide)
      (fun i hi => by rw [← hL]; exact hfirst i hi)
  have h3 : pyPartition2 link "policies/" = String.mk (iddata ++ '/' :: suf) := by
    unfold pyPartition2
    rw [h2]
  rw [h3]
  unfold pyPartition0
  rw [show (String.mk (iddata ++ '/' :: suf)).data = iddata ++ '/' :: suf from rfl]
  rw [show ("/" : String).data = ['/'] from rfl]
  rw [takeBeforeSep_single '/' iddata suf hslash]

/-- Claim C4 witness: a concrete listing whose matching item links to
`.../policies/ABC123/active`; the resolver extracts `ABC123`. -/
theorem claim_C4_witness :
    get_policy_md5
      [⟨some "p", some ⟨some "https://h/mgmt/tm/asm/policies/ABC123/active"⟩, []⟩] "p"
      = Except.ok "ABC123" :=
  claim_C4_match_extracts_id [] []
    ⟨some "p", some ⟨some "https://h/mgmt/tm/asm/policies/ABC123/active"⟩, []⟩
    "p" "https://h/mgmt/tm/asm/policies/ABC123/active"
    "https://h/mgmt/tm/asm/".data "ABC123".data "active".data
    rfl (by decide) rfl (by decide) (by decide) (by decide)

/-- Claim C3, counterexample.  The claim says the PATCH body's key set
equals exactly the set of optional fields the caller explicitly supplied
as non-None.  This fails for the blocking-settings update: the Python
parameter `learn` defaults to `True`, so an invocation supplying no
optional field at all (arguments below are precisely the Python defaults)
still sends the body `{"learn": true}` instead of an empty body. -/
theorem claim_C3_counterexample :
    f5_update_policy_blocking_settings_command
      [⟨some "p", some ⟨some "https://h/mgmt/tm/asm/policies/ABC/x"⟩, []⟩] []
      "p" "evasions" "d" none (some (Val.vBool true)) none none
    = Except.ok [policies_listing_request,
        get_blocking_settings_listing_request "ABC" "evasions",
        ⟨HttpMethod.PATCH, "asm/policies/ABC/blocking-settings/evasions/d",
          some [("learn", Val.vBool true)]⟩] := rfl

/-- Claim C3, amended.  For both PATCH commands the outgoing body holds
exactly the pairs whose *parameter value after Python defaulting* is
non-None: for the URL update all optionals default to None, so this is
exactly the caller-supplied set, while for the blocking-settings update
`learn` defaults to `True` and is therefore sent even when the caller
omitted it. -/
theorem claim_C3_amended (policies : List PolicyItem) (settings urls : List SubItem)
    (policy_name endpoint bs_description url_name md5 : String)
    (enabled learn alarm block : Option Val)
    (perform_staging description mandatory_body clickjacking_protection url_isreferrer : Option Val)
    (h : get_policy_md5 policies policy_name = Except.ok md5) :
    (∃ body, f5_update_policy_blocking_settings_command policies settings policy_name endpoint
        bs_description enabled learn alarm block
      = Except.ok [policies_listing_request,
          get_blocking_settings_listing_request md5 endpoint,
          ⟨HttpMethod.PATCH, "asm/policies/" ++ md5 ++ "/blocking-settings/" ++ endpoint ++ "/" ++
            pyStr (get_blocking_settings_id settings bs_description), some body⟩]
      ∧ ∀ k v, ((k, v) ∈ body ↔
          (k = "enabled" ∧ some v = enabled) ∨ (k = "learn" ∧ some v = learn) ∨
          (k = "alarm" ∧ some v = alarm) ∨ (k = "block" ∧ some v = block))) ∧
    (∃ body, f5_update_policy_url_command policies urls policy_name url_name
        perform_staging description mandatory_body clickjacking_protection url_isreferrer
      = Except.ok [policies_listing_request,
          get_id_listing_request md5 "urls",
          ⟨HttpMethod.PATCH, "asm/policies/" ++ md5 ++ "/urls/" ++ pyStr (get_id urls url_name),
            some body⟩]
      ∧ ∀ k v, ((k, v) ∈ body ↔
          (k = "performStaging" ∧ some v = perform_staging) ∨
          (k = "description" ∧ some v = description) ∨
          (k = "mandatoryBody" ∧ some v = mandatory_body) ∨
          (k = "clickjackingProtection" ∧ some v = clickjacking_protection) ∨
          (k = "urlIsReferrer" ∧ some v = url_isreferrer))) := by
  constructor
  · refine ⟨pyFilterNone [("enabled", enabled), ("learn", learn), ("alarm", alarm),
      ("block", block)], ?_, ?_⟩
    · simp [f5_update_policy_blocking_settings_command, h, Except.bind]
    · intro k v
      rw [mem_pyFilterNone]
      simp [List.mem_cons, Prod.mk.injEq]
  · refine ⟨pyFilterNone [("performStaging", perform_staging), ("description", description),
      ("mandatoryBody", mandatory_body), ("clickjackingProtection", clickjacking_protection),
      ("urlIsReferrer", url_isreferrer)], ?_, ?_⟩
    · simp [f5_update_policy_url_command, h, Except.bind]
    · intro k v
      rw [mem_pyFilterNone]
      simp [List.mem_cons, Prod.mk.injEq]

/-- Claim C3 witness: concrete invocations of both commands with one
optional field supplied. -/
theorem claim_C3_amended_witness :
    (∃ body, f5_update_policy_blocking_settings_command
        [⟨some "p", some ⟨some "https://h/mgmt/tm/asm/policies/ABC/x"⟩, []⟩] []
        "p" "evasions" "d" (some (Val.vBool false)) (some (Val.vBool true)) none none
      = Except.ok [policies_listing_request,
          get_blocking_settings_listing_request "ABC" "evasions",
          ⟨HttpMethod.PATCH, "asm/policies/" ++ "ABC" ++ "/blocking-settings/" ++ "evasions" ++ "/" ++
            pyStr (get_blocking_settings_id [] "d"), some body⟩]
      ∧ ∀ k v, ((k, v) ∈ body ↔
          (k = "enabled" ∧ some v = some (Val.vBool false)) ∨
          (k = "learn" ∧ some v = some (Val.vBool true)) ∨
          (k = "alarm" ∧ some v = (none : Option Val)) ∨
          (k = "block" ∧ some v = (none : Option Val)))) ∧
    (∃ body, f5_update_policy_url_command
        [⟨some "p", some ⟨some "https://h/mgmt/tm/asm/policies/ABC/x"⟩, []⟩] []
        "p" "u" none (some (Val.vStr "desc")) none none none
      = Except.ok [policies_listing_request,
          get_id_listing_request "ABC" "urls",
          ⟨HttpMethod.PATCH, "asm/policies/" ++ "ABC" ++ "/urls/" ++ pyStr (get_id [] "u"),
            some body⟩]
      ∧ ∀ k v, ((k, v) ∈ body ↔
          (k = "performStaging" ∧ some v = (none : Option Val)) ∨
          (k = "description" ∧ some v = some (Val.vStr "desc")) ∨
          (k = "mandatoryBody" ∧ some v = (none : Option Val)) ∨
          (k = "clickjackingProtection" ∧ some v = (none : Option Val)) ∨
          (k = "urlIsReferrer" ∧ some v = (none : Option Val)))) :=
  claim_C3_amended
    [⟨some "p", some ⟨some "https://h/mgmt/tm/asm/policies/ABC/x"⟩, []⟩] [] []
    "p" "evasions" "d" "u" "ABC"
    (some (Val.vBool false)) (some (Val.vBool true)) none none
    none (some (Val.vStr "desc")) none none none rfl

/-- Claim C8: when only `ip_address` is supplied to the whitelist-IP add
command (all eight optional parameters at their Python default `None`),
the outgoing POST body contains exactly the single key `ipAddress` bound
to the supplied value. -/
theorem claim_C8_whitelist_ip_only (policies : List PolicyItem) (policy_name md5 : String)
    (ip : Val) (h : get_policy_md5 policies policy_name = Except.ok md5) :
    f5_add_policy_whitelist_ips_command policies policy_name ip
      none none none none none none none none
    = Except.ok [policies_listing_request,
        ⟨HttpMethod.POST, "asm/policies/" ++ md5 ++ "/whitelist-ips/",
          some [("ipAddress", ip)]⟩] := by
  simp [f5_add_policy_whitelist_ips_command, h, Except.bind, pyFilterNone]

/-- Claim C8 witness: a concrete add of `1.2.3.4` with nothing else
supplied. -/
theorem claim_C8_witness :
    f5_add_policy_whitelist_ips_command
      [⟨some "p", some ⟨some "https://h/mgmt/tm/asm/policies/ABC/x"⟩, []⟩] "p"
      (Val.vStr "1.2.3.4") none none none none none none none none
    = Except.ok [policies_listing_request,
        ⟨HttpMethod.POST, "asm/policies/" ++ "ABC" ++ "/whitelist-ips/",
          some [("ipAddress", Val.vStr "1.2.3.4")]⟩] :=
  claim_C8_whitelist_ip_only
    [⟨some "p", some ⟨some "https://h/mgmt/tm/asm/policies/ABC/x"⟩, []⟩] "p" "ABC"
    (Val.vStr "1.2.3.4") rfl

/-- Claim C9: deleting a hostname that matches no item of the
`host-names` listing makes `get_id` fall back to the literal name, so the
DELETE request's final path segment is the original hostname string
rather than a server id. -/
theorem claim_C9_hostname_delete_fallback (policies : List PolicyItem)
    (hostnames : List SubItem) (policy_name name md5 : String)
    (h : get_policy_md5 policies policy_name = Except.ok md5)
    (hnomatch : ∀ x ∈ hostnames, x.name ≠ some name) :
    f5_delete_policy_hostname_command policies hostnames policy_name name
    = Except.ok [policies_listing_request,
        get_id_listing_request md5 "host-names",
        ⟨HttpMethod.DELETE, "asm/policies/" ++ md5 ++ "/host-names/" ++ name, none⟩] := by
  have hid := get_id_of_no_match hostnames name hnomatch
  simp [f5_delete_policy_hostname_command, h, hid, Except.bind, pyStr]

/-- Claim C9 witness: the hostnames listing holds only `"other"`, and the
DELETE for `"gone.example.com"` targets that literal name. -/
theorem claim_C9_witness :
    f5_delete_policy_hostname_command
      [⟨some "p", some ⟨some "https://h/mgmt/tm/asm/policies/ABC/x"⟩, []⟩]
      [⟨some "other", none, none, some "1", []⟩] "p" "gone.example.com"
    = Except.ok [policies_listing_request,
        get_id_listing_request "ABC" "host-names",
        ⟨HttpMethod.DELETE, "asm/policies/" ++ "ABC" ++ "/host-names/" ++ "gone.example.com",
          none⟩] :=
  claim_C9_hostname_delete_fallback
    [⟨some "p", some ⟨some "https://h/mgmt/tm/asm/policies/ABC/x"⟩, []⟩]
    [⟨some "other", none, none, some "1", []⟩] "p" "gone.example.com" "ABC"
    rfl (by decide)

/-- Claim C10: the cookie update command resolves the cookie id by
listing the `policy-cookies` collection while the cookie delete command
resolves the same natural key by listing the `cookies` collection -- the
two resolution requests target different endpoints. -/
theorem claim_C10_cookie_resolution_endpoints (policies : List PolicyItem)
    (cookies : List SubItem) (policy_name cookie_name md5 : String) (perform_staging : Val)
    (h : get_policy_md5 policies policy_name = Except.ok md5) :
    (∃ reqs, f5_update_policy_cookies_command policies cookies policy_name cookie_name
        perform_staging = Except.ok reqs ∧
      reqs.get? 1 = some (get_id_listing_request md5 "policy-cookies")) ∧
    (∃ reqs, f5_delete_policy_cookies_command policies cookies policy_name cookie_name
        = Except.ok reqs ∧
      reqs.get? 1 = some (get_id_listing_request md5 "cookies")) ∧
    (get_id_listing_request md5 "policy-cookies").url_suffix
      ≠ (get_id_listing_request md5 "cookies").url_suffix := by
  refine ⟨⟨[policies_listing_request, get_id_listing_request md5 "policy-cookies",
      ⟨HttpMethod.PATCH, "asm/policies/" ++ md5 ++ "/cookies/" ++ pyStr (get_id cookies cookie_name),
        some [("name", Val.vStr cookie_name), ("performStaging", perform_staging)]⟩],
      ?_, rfl⟩,
    ⟨[policies_listing_request, get_id_listing_request md5 "cookies",
      ⟨HttpMethod.DELETE, "asm/policies/" ++ md5 ++ "/cookies/" ++ pyStr (get_id cookies cookie_name),
        some []⟩],
      ?_, rfl⟩, ?_⟩
  · simp [f5_update_policy_cookies_command, h, Except.bind]
  · simp [f5_delete_policy_cookies_command, h, Except.bind]
  · intro e
    have h2 := congrArg String.length e
    simp only [get_id_listing_request, String.length_append] at h2
    rw [show ("policy-cookies" : String).length = 14 from rfl,
        show ("cookies" : String).length = 7 from rfl] at h2
    omega

/-- Claim C10 witness: with a concrete policy listing, the update
resolution request targets `policy-cookies` and the delete resolution
request targets `cookies`. -/
theorem claim_C10_witness :
    (∃ reqs, f5_update_policy_cookies_command
        [⟨some "p", some ⟨some "https://h/mgmt/tm/asm/policies/ABC/x"⟩, []⟩] []
        "p" "c" (Val.vBool true) = Except.ok reqs ∧
      reqs.get? 1 = some (get_id_listing_request "ABC" "policy-cookies")) ∧
    (∃ reqs, f5_delete_policy_cookies_command
        [⟨some "p", some ⟨some "https://h/mgmt/tm/asm/policies/ABC/x"⟩, []⟩] []
        "p" "c" = Except.ok reqs ∧
      reqs.get? 1 = some (get_id_listing_request "ABC" "cookies")) ∧
    (get_id_listing_request "ABC" "policy-cookies").url_suffix
      ≠ (get_id_listing_request "ABC" "cookies").url_suffix :=
  claim_C10_cookie_resolution_endpoints
    [⟨some "p", some ⟨some "https://h/mgmt/tm/asm/policies/ABC/x"⟩, []⟩] []
    "p" "c" "ABC" (Val.vBool true) rfl


end F5
